import Mathlib

/-!
Shallow embedding of the staged, resumable tenant-collection cloning engine
in src/src/mongo/db/repl/tenant_collection_cloner.cpp.

The cloner is a strictly sequential five-stage state machine
(count, checkIfDonorCollectionIsEmpty, listIndexes, createCollection, query).
Each stage mutates member state of the cloner and either returns an
AfterStageBehavior or throws a DBException; the stage wrapper
TenantCollectionClonerStage::run turns a NamespaceNotFound exception into a
clean kSkipRemainingStages outcome and drains pending database work on both
exception paths.

Modelling choices:
  - documents are identified by their primary-key value, modelled as Int;
  - BSON index specs are modelled by their optional name field, which is
    the only field this code inspects;
  - external collaborators (remote client, local storage, direct client)
    are modelled by an Env record giving their responses for one run;
  - exceptions are modelled by a StageResult that carries both the state
    at throw time and the outcome, since C++ exceptions do not roll back
    member state;
  - the asynchronous insert tasks that handleNextBatch schedules on the
    FIFO task runner are executed synchronously right after being
    scheduled, which is one legal FIFO execution; the drain point
    (waitForDatabaseWorkToComplete) is recorded in the state.
-/

namespace TenantCollectionClone

/-- Error codes thrown by uassert / uassertStatusOK sites in the cloner, plus
the distinguished NamespaceNotFound code the stage wrapper treats as benign. -/
inductive ErrorCode where
  | NamespaceNotFound
  | IllegalOperation
  | NamespaceExists
  | TenantMismatch5342500
  | DatabaseMismatch5342501
  | CreateCollectionFailed
  | CreateIndexesFailed
  | MajorityWaitFailed
  | WriteError
  | InvariantViolation
  | OtherRemoteError
  deriving DecidableEq, Repr

/-- Directive a stage returns to the stage runner. -/
inductive AfterStageBehavior where
  | kContinueNormally
  | kSkipRemainingStages
  deriving DecidableEq, Repr

/-- CollectionOptions::autoIndexId (DEFAULT / YES / NO). -/
inductive AutoIndexIdOption where
  | DEFAULT
  | YES
  | NO
  deriving DecidableEq, Repr

/-- An index specification; the cloner only ever reads its name field
(hasField "name" / getStringField "name"). -/
structure IndexSpec where
  name : Option String
  deriving DecidableEq, Repr

/-- BSONObj::getStringField returns the empty string when the field is absent. -/
def getNameField (s : IndexSpec) : String :=
  s.name.getD ""

/-- The test the listIndexes loop applies to each spec:
spec.hasField "name" and the name equals the id-index name. -/
def isIdIndexSpec (s : IndexSpec) : Bool :=
  s.name = some "_id_"

/-- A namespace, carrying the database and collection parts. -/
structure Nss where
  db : String
  coll : String
  deriving DecidableEq, Repr

/-- Modelled from the spec: ClonerUtils::isNamespaceForTenant lives in
cloner_utils.cpp, outside this slice. Per section 3, the namespace must
syntactically belong to the declared group, i.e. the database name is
prefixed by the tenant id. -/
def isNamespaceForTenant (ns : Nss) (tenantId : String) : Bool :=
  List.isPrefixOf (tenantId ++ "_").data ns.db.data

/-- The mutable Stats record guarded by the cloner mutex. documentToCopy is
kept as Int so that the clamping performed by countStage is a provable
property rather than a typing artifact. -/
structure Stats where
  documentToCopy : Int := 0
  documentsCopied : Nat := 0
  insertedBatches : Nat := 0
  receivedBatches : Nat := 0
  indexes : Nat := 0
  deriving DecidableEq, Repr

/-- The filter document of the streaming read built by runQuery: either the
empty query or the $expr / $gt form excluding everything up to the anchor. -/
inductive QueryFilter where
  | all
  | gtId (anchor : Int)
  deriving DecidableEq, Repr

/-- Semantics of the filter document: which primary keys it selects. The
$expr aggregation $gt comparison on Int keys is ordinary integer order. -/
def filterMatches : QueryFilter → Int → Bool
  | QueryFilter.all, _ => true
  | QueryFilter.gtId a, id => a < id

/-- The read request runQuery issues: the filter plus the hint on the
ascending primary-key index, which fixes ascending _id return order. -/
structure QuerySpec where
  filter : QueryFilter
  hintIdAscending : Bool
  deriving DecidableEq, Repr

/-- One insert command issued by insertDocumentsCallback. -/
structure InsertOp where
  ns : Nss
  ordered : Bool
  validationDisabled : Bool
  docs : List Int
  deriving DecidableEq, Repr

/-- Member state of one TenantCollectionCloner, plus effect logs (issued
queries, index-build calls, insert ops, scheduled tasks, drain calls) that
record the calls made to collaborators. -/
structure ClonerState where
  donorCollectionWasEmptyBeforeListIndexes : Bool := false
  idIndexSpec : Option IndexSpec := none
  readyIndexSpecs : List IndexSpec := []
  lastDocId : Option Int := none
  existingNss : Option Nss := none
  stats : Stats := {}
  progressTotal : Int := 1
  documentsToInsert : List Int := []
  warnedIdIndexWithAutoIndexIdNo : Bool := false
  issuedQueries : List QuerySpec := []
  indexBuildCalls : List (List IndexSpec) := []
  insertOps : List InsertOp := []
  scheduledInsertTasks : Nat := 0
  drainCalls : Nat := 0
  syncFailedStatus : Option ErrorCode := none
  deriving DecidableEq, Repr

/-- The pre-existing destination collection found by lookupCollectionByUUID,
together with what the direct client sees on it. -/
structure ExistingColl where
  ns : Nss
  docs : List Int
  localIndexSpecs : List IndexSpec
  deriving DecidableEq, Repr

/-- Responses of the external collaborators for one run: the remote client,
the shared run state, and local storage. -/
structure Env where
  sourceNss : Nss
  tenantId : String
  autoIndexId : AutoIndexIdOption
  remoteCount : Int
  donorDocs : List Int
  remoteIndexSpecs : List IndexSpec
  majorityWaitError : Option ErrorCode
  existingCollection : Option ExistingColl
  isResuming : Bool
  createCollectionError : Option ErrorCode
  createIndexesError : Option ErrorCode
  queryError : Option ErrorCode
  queryBatches : List (List Int)
  performInserts : List Int → List (Except ErrorCode Unit)

instance {ε α : Type} [DecidableEq ε] [DecidableEq α] : DecidableEq (Except ε α) := fun a b =>
  match a, b with
  | Except.ok x, Except.ok y => decidable_of_iff (x = y) (by simp)
  | Except.error x, Except.error y => decidable_of_iff (x = y) (by simp)
  | Except.ok _, Except.error _ => isFalse (fun h => Except.noConfusion h)
  | Except.error _, Except.ok _ => isFalse (fun h => Except.noConfusion h)

/-- Result of running one stage body: the member state at return or at
throw time, and the outcome (directive or thrown error). -/
structure StageResult where
  st : ClonerState
  outcome : Except ErrorCode AfterStageBehavior
  deriving DecidableEq, Repr

/-- The countStage: issues the remote count, clamps a negative result to
zero, sets the progress-meter total and stats.documentToCopy. -/
def countStage (env : Env) (st : ClonerState) : StageResult :=
  let count := if env.remoteCount < 0 then 0 else env.remoteCount
  { st := { st with
      progressTotal := count,
      stats := { st.stats with documentToCopy := count } },
    outcome := Except.ok AfterStageBehavior.kContinueNormally }

/-- The checkIfDonorCollectionIsEmptyStage: fetches at most one document
projected to _id; cursor.more is false exactly when the donor holds no
documents at probe time. -/
def checkIfDonorCollectionIsEmptyStage (env : Env) (st : ClonerState) : StageResult :=
  { st := { st with donorCollectionWasEmptyBeforeListIndexes := env.donorDocs.isEmpty },
    outcome := Except.ok AfterStageBehavior.kContinueNormally }

/-- The listIndexes loop: the last spec named "_id_" becomes _idIndexSpec,
every other spec is appended to _readyIndexSpecs. -/
def splitIndexSpecs (specs : List IndexSpec) : Option IndexSpec × List IndexSpec :=
  specs.foldl
    (fun acc spec =>
      if isIdIndexSpec spec then (some spec, acc.2) else (acc.1, acc.2 ++ [spec]))
    (none, [])

/-- The listIndexesStage: majority-wait on the operation time, split the
returned specs, update stats.indexes, then uassert that an absent _id spec
is only legal when autoIndexId is NO, and flag the anomalous case of an
_id spec present while autoIndexId is NO. -/
def listIndexesStage (env : Env) (st : ClonerState) : StageResult :=
  match env.majorityWaitError with
  | some e => { st := st, outcome := Except.error e }
  | none =>
    let split := splitIndexSpecs env.remoteIndexSpecs
    let ready := st.readyIndexSpecs ++ split.2
    let idSpec := match split.1 with
      | some s => some s
      | none => st.idIndexSpec
    let st1 : ClonerState := { st with
      idIndexSpec := idSpec,
      readyIndexSpecs := ready,
      stats := { st.stats with
        indexes := ready.length + (if idSpec = none then 0 else 1) } }
    if idSpec.isSome ∨ env.autoIndexId = AutoIndexIdOption.NO then
      { st := { st1 with
          warnedIdIndexWithAutoIndexIdNo :=
            idSpec.isSome && decide (env.autoIndexId = AutoIndexIdOption.NO) },
        outcome := Except.ok AfterStageBehavior.kContinueNormally }
    else
      { st := st1, outcome := Except.error ErrorCode.IllegalOperation }

/-- The createIndexesOnEmptyCollection call at the end of
createCollectionStage, recorded in the index-build log. -/
def buildReadyIndexes (env : Env) (st : ClonerState) : StageResult :=
  let st1 := { st with indexBuildCalls := st.indexBuildCalls ++ [st.readyIndexSpecs] }
  match env.createIndexesError with
  | some e => { st := st1, outcome := Except.error e }
  | none => { st := st1, outcome := Except.ok AfterStageBehavior.kContinueNormally }

/-- The createCollectionStage: on a UUID hit, check tenant membership, same
database, and that the shared state is resuming; then either resume from the
max existing _id (skipping index creation) or, on an empty destination,
filter planned indexes by locally existing names. Without a UUID hit,
create the collection fresh. Finally build the remaining planned indexes
unless resumption skipped that. -/
def createCollectionStage (env : Env) (st : ClonerState) : StageResult :=
  match env.existingCollection with
  | some coll =>
    if isNamespaceForTenant coll.ns env.tenantId then
      if coll.ns.db = env.sourceNss.db then
        if env.isResuming then
          let st1 := { st with existingNss := some coll.ns }
          match coll.docs.max? with
          | some m =>
            let cnt := coll.docs.length
            { st := { st1 with
                lastDocId := some m,
                readyIndexSpecs := [],
                stats := { st1.stats with
                  documentsCopied := st1.stats.documentsCopied + cnt } },
              outcome := Except.ok AfterStageBehavior.kContinueNormally }
          | none =>
            let names := coll.localIndexSpecs.map getNameField
            let st2 := { st1 with
              readyIndexSpecs :=
                st1.readyIndexSpecs.filter (fun s => !(names.contains (getNameField s))) }
            buildReadyIndexes env st2
        else { st := st, outcome := Except.error ErrorCode.NamespaceExists }
      else { st := st, outcome := Except.error ErrorCode.DatabaseMismatch5342501 }
    else { st := st, outcome := Except.error ErrorCode.TenantMismatch5342500 }
  | none =>
    match env.createCollectionError with
    | some e => { st := st, outcome := Except.error e }
    | none => buildReadyIndexes env st

/-- The runQuery request: empty filter when _lastDocId is empty, otherwise
the $expr / $gt filter on the anchor id; always hinted on the _id index. -/
def runQuery (lastDocId : Option Int) : QuerySpec :=
  { filter := match lastDocId with
      | none => QueryFilter.all
      | some a => QueryFilter.gtId a,
    hintIdAscending := true }

/-- handleNextBatch: under the mutex, count the received batch and move its
documents into the pending buffer; then schedule one insert task. -/
def handleNextBatch (st : ClonerState) (batch : List Int) : ClonerState :=
  { st with
    stats := { st.stats with receivedBatches := st.stats.receivedBatches + 1 },
    documentsToInsert := st.documentsToInsert ++ batch,
    scheduledInsertTasks := st.scheduledInsertTasks + 1 }

/-- insertDocumentsCallback: an empty buffer is a benign no-op; otherwise
swap the buffer out, bump the copied and batch counters, and issue a single
ordered insert with document validation disabled. Since the write is
ordered, only the last per-document result is inspected; an empty result
vector violates the invariant in the source. -/
def insertDocumentsCallback (env : Env) (st : ClonerState) :
    ClonerState × Option ErrorCode :=
  if st.documentsToInsert.isEmpty then
    (st, none)
  else
    let docs := st.documentsToInsert
    let st1 := { st with
      documentsToInsert := [],
      stats := { st.stats with
        documentsCopied := st.stats.documentsCopied + docs.length,
        insertedBatches := st.stats.insertedBatches + 1 } }
    let st2 := { st1 with
      insertOps := st1.insertOps ++ [{
        ns := st.existingNss.getD env.sourceNss,
        ordered := true,
        validationDisabled := true,
        docs := docs }] }
    match (env.performInserts docs).getLast? with
    | none => (st2, some ErrorCode.InvariantViolation)
    | some (Except.error e) => (st2, some e)
    | some (Except.ok _) => (st2, none)

/-- One batch of the streaming read: handleNextBatch schedules a task and
the FIFO task runner executes it; a task that throws records the failure
via setSyncFailedStatus (first failure wins). -/
def processBatch (env : Env) (st : ClonerState) (batch : List Int) : ClonerState :=
  let st1 := handleNextBatch st batch
  let r := insertDocumentsCallback env st1
  match r.2 with
  | none => r.1
  | some e =>
    { r.1 with
      syncFailedStatus := match r.1.syncFailedStatus with
        | some e0 => some e0
        | none => some e }

/-- waitForDatabaseWorkToComplete: join the task runner. All scheduled
tasks already ran in this synchronous model, so only the drain is recorded. -/
def waitForDatabaseWorkToComplete (st : ClonerState) : ClonerState :=
  { st with drainCalls := st.drainCalls + 1 }

/-- The queryStage: return immediately when the donor was observed empty
before listIndexes; otherwise issue the streaming read built by runQuery,
feed every received batch through handleNextBatch and its insert task, and
drain the task runner before declaring the stage done. A failed insert task
surfaces as the sync-failed status after the drain. -/
def queryStage (env : Env) (st : ClonerState) : StageResult :=
  if st.donorCollectionWasEmptyBeforeListIndexes then
    { st := st, outcome := Except.ok AfterStageBehavior.kContinueNormally }
  else
    let st1 := { st with issuedQueries := st.issuedQueries ++ [runQuery st.lastDocId] }
    match env.queryError with
    | some e => { st := st1, outcome := Except.error e }
    | none =>
      let st2 := env.queryBatches.foldl (processBatch env) st1
      let st3 := waitForDatabaseWorkToComplete st2
      match st3.syncFailedStatus with
      | some e => { st := st3, outcome := Except.error e }
      | none => { st := st3, outcome := Except.ok AfterStageBehavior.kContinueNormally }

/-- TenantCollectionClonerStage::run: a NamespaceNotFound thrown by the
stage body drains pending database work and skips the remaining stages
cleanly; any other thrown error drains pending work and is rethrown. -/
def tenantCollectionClonerStageRun (r : StageResult) : StageResult :=
  match r.outcome with
  | Except.ok b => { st := r.st, outcome := Except.ok b }
  | Except.error ErrorCode.NamespaceNotFound =>
    { st := waitForDatabaseWorkToComplete r.st,
      outcome := Except.ok AfterStageBehavior.kSkipRemainingStages }
  | Except.error e =>
    { st := waitForDatabaseWorkToComplete r.st, outcome := Except.error e }

/-- Modelled from the spec: the ordered-stage execution engine (section 4.1)
lives in the base cloner outside this slice. It runs each stage in order
through the stage wrapper, stops with success on kSkipRemainingStages, and
stops with failure on the first propagated error. -/
def runStageList (env : Env) :
    ClonerState → List (Env → ClonerState → StageResult) → StageResult
  | st, [] => { st := st, outcome := Except.ok AfterStageBehavior.kContinueNormally }
  | st, stage :: rest =>
    let w := tenantCollectionClonerStageRun (stage env st)
    match w.outcome with
    | Except.ok AfterStageBehavior.kContinueNormally => runStageList env w.st rest
    | _ => w

/-- The stage list returned by TenantCollectionCloner::getStages. -/
def getStages : List (Env → ClonerState → StageResult) :=
  [countStage,
   checkIfDonorCollectionIsEmptyStage,
   listIndexesStage,
   createCollectionStage,
   queryStage]

/-- Member state at construction time. -/
def initialClonerState : ClonerState := {}

/-- One full run of the cloner over its five stages. -/
def runClone (env : Env) : StageResult :=
  runStageList env initialClonerState getStages

/-! ## Helper lemmas -/

theorem insertDocumentsCallback_issuedQueries (env : Env) (st : ClonerState) :
    (insertDocumentsCallback env st).1.issuedQueries = st.issuedQueries := by
  simp only [insertDocumentsCallback]
  split
  · rfl
  · split <;> rfl

theorem processBatch_issuedQueries (env : Env) (st : ClonerState) (b : List Int) :
    (processBatch env st b).issuedQueries = st.issuedQueries := by
  simp only [processBatch]
  split <;> simp [insertDocumentsCallback_issuedQueries, handleNextBatch]

theorem foldl_processBatch_issuedQueries (env : Env) (bs : List (List Int))
    (st : ClonerState) :
    (bs.foldl (processBatch env) st).issuedQueries = st.issuedQueries := by
  induction bs generalizing st with
  | nil => rfl
  | cons b bs ih => rw [List.foldl_cons, ih, processBatch_issuedQueries]

theorem listIntMaxCharacterization (l : List Int) (hne : l ≠ []) :
    ∃ m, l.max? = some m ∧ m ∈ l ∧ ∀ x ∈ l, x ≤ m := by
  have anti : Std.Antisymm ((· : Int) ≤ ·) := ⟨fun h h2 => le_antisymm h h2⟩
  cases h : l.max? with
  | none => exact absurd (List.max?_eq_none_iff.mp h) hne
  | some m =>
    rcases (List.max?_eq_some_iff (fun a => le_refl a) (fun a b => max_choice a b)
      (fun a b c => max_le_iff)).mp h with ⟨h1, h2⟩
    exact ⟨m, rfl, h1, h2⟩

theorem splitIndexSpecs_foldl_not_id (specs : List IndexSpec)
    (acc : Option IndexSpec × List IndexSpec)
    (hacc : ∀ s ∈ acc.2, isIdIndexSpec s = false) :
    ∀ s ∈ (specs.foldl
        (fun acc spec =>
          if isIdIndexSpec spec then (some spec, acc.2) else (acc.1, acc.2 ++ [spec]))
        acc).2, isIdIndexSpec s = false := by
  induction specs generalizing acc with
  | nil => exact hacc
  | cons spec rest ih =>
    rw [List.foldl_cons]
    by_cases h : isIdIndexSpec spec = true
    · rw [if_pos h]
      exact ih _ hacc
    · rw [if_neg h]
      refine ih _ ?_
      intro s hs
      rcases List.mem_append.mp hs with h1 | h1
      · exact hacc s h1
      · rw [List.mem_singleton.mp h1]
        exact Bool.eq_false_iff.mpr h

theorem splitIndexSpecs_snd_not_id (specs : List IndexSpec) :
    ∀ s ∈ (splitIndexSpecs specs).2, isIdIndexSpec s = false := by
  unfold splitIndexSpecs
  exact splitIndexSpecs_foldl_not_id specs (none, []) (by intro s hs; cases hs)

/-! ## Concrete collaborator responses used to exercise the model -/

/-- A fresh, well-behaved run: three donor documents, an _id index plus one
secondary index on the donor, no pre-existing destination collection. -/
def witnessEnvBase : Env := {
  sourceNss := { db := "tenant1_db", coll := "coll" },
  tenantId := "tenant1",
  autoIndexId := AutoIndexIdOption.DEFAULT,
  remoteCount := 3,
  donorDocs := [1, 2, 3],
  remoteIndexSpecs := [{ name := some "_id_" }, { name := some "a_1" }],
  majorityWaitError := none,
  existingCollection := none,
  isResuming := false,
  createCollectionError := none,
  createIndexesError := none,
  queryError := none,
  queryBatches := [[1, 2], [3]],
  performInserts := fun _ => [Except.ok ()] }

/-- A pre-existing destination collection holding documents 1, 2 and 5,
with the _id index and one secondary index already built locally. -/
def witnessExistingColl : ExistingColl := {
  ns := { db := "tenant1_db", coll := "coll" },
  docs := [1, 2, 5],
  localIndexSpecs := [{ name := some "_id_" }, { name := some "a_1" }] }

/-- The base run but with a pre-existing destination collection under the
same UUID while the shared state is not marked as resuming. -/
def witnessEnvExistingFresh : Env := { witnessEnvBase with
  existingCollection := some witnessExistingColl }

/-- The base run resumed onto the pre-existing destination collection. -/
def witnessEnvResume : Env := { witnessEnvBase with
  existingCollection := some witnessExistingColl,
  isResuming := true }

/-- A cloner state whose pending buffer holds a two-document batch, as seen
by an insert task right after handleNextBatch moved the batch in. -/
def witnessStateWithBuffer : ClonerState := { initialClonerState with
  documentsToInsert := [4, 5] }

/-- A pre-existing destination collection that is still empty but already
has the _id index and the secondary index built by an earlier attempt. -/
def witnessExistingCollEmpty : ExistingColl := {
  ns := { db := "tenant1_db", coll := "coll" },
  docs := [],
  localIndexSpecs := [{ name := some "_id_" }, { name := some "a_1" }] }

/-- The base run resumed onto the empty pre-existing destination. -/
def witnessEnvResumeEmpty : Env := { witnessEnvBase with
  existingCollection := some witnessExistingCollEmpty,
  isResuming := true }

/-- A cloner state after listIndexes planned one secondary index. -/
def witnessStatePlanned : ClonerState := { initialClonerState with
  readyIndexSpecs := [{ name := some "a_1" }] }

/-- The base run against a donor collection that is empty at probe time. -/
def witnessEnvEmptyDonor : Env := { witnessEnvBase with
  donorDocs := [],
  queryBatches := [] }

/-- A cloner state in which the emptiness probe latched that the donor was
empty before listIndexes. -/
def witnessStateDonorEmpty : ClonerState := { initialClonerState with
  donorCollectionWasEmptyBeforeListIndexes := true }

/-- The base run but with the donor returning no _id index spec. -/
def witnessEnvNoIdIndex : Env := { witnessEnvBase with
  remoteIndexSpecs := [{ name := some "a_1" }] }

/-! ## Claim theorems -/

/-- C7: for every value returned by the remote count command, the recorded
documents-to-copy statistic and the progress-meter total are never negative:
a negative count is replaced by zero before being stored, and a non-negative
count is stored as-is; the stage then continues normally. -/
theorem countStage_clamps_negative_count (env : Env) (st : ClonerState) :
    (countStage env st).st.stats.documentToCopy
        = (if env.remoteCount < 0 then 0 else env.remoteCount) ∧
    0 ≤ (countStage env st).st.stats.documentToCopy ∧
    (countStage env st).st.progressTotal = (countStage env st).st.stats.documentToCopy ∧
    (countStage env st).outcome = Except.ok AfterStageBehavior.kContinueNormally := by
  refine ⟨rfl, ?_, rfl, rfl⟩
  simp only [countStage]
  split
  · exact le_refl 0
  · omega

/-- C3: for every stage whose body fails with an error, the stage wrapper
first drains pending database work; a NamespaceNotFound error then finishes
the whole run successfully by skipping all remaining stages, while every
other error is propagated as a failure of the run. -/
theorem stage_failure_drains_then_classifies (env : Env) (st : ClonerState)
    (stage : Env → ClonerState → StageResult)
    (rest : List (Env → ClonerState → StageResult)) (e : ErrorCode)
    (herr : (stage env st).outcome = Except.error e) :
    (tenantCollectionClonerStageRun (stage env st)).st.drainCalls
        = (stage env st).st.drainCalls + 1 ∧
    (runStageList env st (stage :: rest)).outcome
        = (if e = ErrorCode.NamespaceNotFound
           then Except.ok AfterStageBehavior.kSkipRemainingStages
           else Except.error e) := by
  have hw : tenantCollectionClonerStageRun (stage env st)
      = (if e = ErrorCode.NamespaceNotFound
         then { st := waitForDatabaseWorkToComplete (stage env st).st,
                outcome := Except.ok AfterStageBehavior.kSkipRemainingStages }
         else { st := waitForDatabaseWorkToComplete (stage env st).st,
                outcome := Except.error e }) := by
    simp only [tenantCollectionClonerStageRun, herr]
    cases e <;> simp
  constructor
  · rw [hw]
    split <;> rfl
  · show (runStageList env st (stage :: rest)).outcome = _
    rw [runStageList, hw]
    by_cases hc : e = ErrorCode.NamespaceNotFound
    · rw [if_pos hc, if_pos hc]
    · rw [if_neg hc, if_neg hc]

/-- A stage body that always throws NamespaceNotFound, standing in for a
remote operation observing the source namespace gone. -/
def witnessFailingStage : Env → ClonerState → StageResult :=
  fun _ s => { st := s, outcome := Except.error ErrorCode.NamespaceNotFound }

/-- C3 witness: a stage failing with NamespaceNotFound records one drain
call and the stage list finishes successfully by skipping the rest. -/
theorem stage_failure_drains_then_classifies_witness :
    ((witnessFailingStage witnessEnvBase initialClonerState).outcome
        = Except.error ErrorCode.NamespaceNotFound) ∧
    ((tenantCollectionClonerStageRun
        (witnessFailingStage witnessEnvBase initialClonerState)).st.drainCalls
        = (witnessFailingStage witnessEnvBase initialClonerState).st.drainCalls + 1 ∧
     (runStageList witnessEnvBase initialClonerState [witnessFailingStage]).outcome
        = (if ErrorCode.NamespaceNotFound = ErrorCode.NamespaceNotFound
           then Except.ok AfterStageBehavior.kSkipRemainingStages
           else Except.error ErrorCode.NamespaceNotFound)) :=
  ⟨rfl,
   stage_failure_drains_then_classifies witnessEnvBase initialClonerState
     witnessFailingStage [] ErrorCode.NamespaceNotFound rfl⟩

/-- C10: in a run that is not a resumption, the create-collection stage
fails with NamespaceExists whenever a destination collection with the
source UUID already exists, even when the tenant-membership and
same-database checks pass; moreover any outcome other than an error with
an existing destination can only happen in a resuming run. -/
theorem createCollectionStage_requires_resume_for_existing (env : Env)
    (st : ClonerState) (coll : ExistingColl)
    (hc : env.existingCollection = some coll)
    (ht : isNamespaceForTenant coll.ns env.tenantId = true)
    (hdb : coll.ns.db = env.sourceNss.db)
    (hfresh : env.isResuming = false) :
    (createCollectionStage env st).outcome = Except.error ErrorCode.NamespaceExists ∧
    (createCollectionStage env st).st = st ∧
    (∀ (env2 : Env) (st2 : ClonerState) (coll2 : ExistingColl),
      env2.existingCollection = some coll2 →
      (∃ b, (createCollectionStage env2 st2).outcome = Except.ok b) →
      env2.isResuming = true) := by
  refine ⟨?_, ?_, ?_⟩
  · simp [createCollectionStage, hc, ht, hdb, hfresh]
  · simp [createCollectionStage, hc, ht, hdb, hfresh]
  · intro env2 st2 coll2 hc2 hok
    rcases hok with ⟨b, hb⟩
    cases hres : env2.isResuming
    · exfalso
      simp only [createCollectionStage, hc2, hres] at hb
      by_cases h1 : isNamespaceForTenant coll2.ns env2.tenantId = true
      · by_cases h2 : coll2.ns.db = env2.sourceNss.db
        · rw [if_pos h1, if_pos h2] at hb
          simp at hb
        · rw [if_pos h1, if_neg h2] at hb
          simp at hb
      · rw [if_neg (by simpa using h1)] at hb
        simp at hb
    · rfl

/-- C10 witness: an existing destination with matching tenant and database
in a non-resuming run fails with NamespaceExists and leaves state intact. -/
theorem createCollectionStage_requires_resume_for_existing_witness :
    (witnessEnvExistingFresh.existingCollection = some witnessExistingColl ∧
     isNamespaceForTenant witnessExistingColl.ns witnessEnvExistingFresh.tenantId = true ∧
     witnessExistingColl.ns.db = witnessEnvExistingFresh.sourceNss.db ∧
     witnessEnvExistingFresh.isResuming = false) ∧
    ((createCollectionStage witnessEnvExistingFresh initialClonerState).outcome
        = Except.error ErrorCode.NamespaceExists ∧
     (createCollectionStage witnessEnvExistingFresh initialClonerState).st
        = initialClonerState ∧
     (∀ (env2 : Env) (st2 : ClonerState) (coll2 : ExistingColl),
        env2.existingCollection = some coll2 →
        (∃ b, (createCollectionStage env2 st2).outcome = Except.ok b) →
        env2.isResuming = true)) :=
  ⟨⟨by decide, by decide, by decide, by decide⟩,
   createCollectionStage_requires_resume_for_existing witnessEnvExistingFresh
     initialClonerState witnessExistingColl (by decide) (by decide) (by decide) (by decide)⟩

/-- C8: an insert task with a non-empty batch issues exactly one insert of
the whole batch, as an ordered write with local document validation
disabled, and the overall batch outcome is decided solely by the last
per-document write result: the task fails if and only if that last result
is an error. -/
theorem insertDocumentsCallback_ordered_single_batch (env : Env) (st : ClonerState)
    (hne : st.documentsToInsert ≠ [])
    (hres : env.performInserts st.documentsToInsert ≠ []) :
    (insertDocumentsCallback env st).1.insertOps =
      st.insertOps ++ [{ ns := st.existingNss.getD env.sourceNss, ordered := true,
                         validationDisabled := true, docs := st.documentsToInsert }] ∧
    ((insertDocumentsCallback env st).2 = none ↔
      (env.performInserts st.documentsToInsert).getLast? = some (Except.ok ())) ∧
    (∀ e, (insertDocumentsCallback env st).2 = some e ↔
      (env.performInserts st.documentsToInsert).getLast? = some (Except.error e)) := by
  have hni : st.documentsToInsert.isEmpty = false := by
    simp [hne]
  cases hl : (env.performInserts st.documentsToInsert).getLast? with
  | none =>
    exact absurd (List.getLast?_eq_none_iff.mp hl) hres
  | some r =>
    cases r with
    | ok u =>
      refine ⟨?_, ?_, ?_⟩
      · simp [insertDocumentsCallback, hni, hl]
      · simp [insertDocumentsCallback, hni, hl]
      · intro e
        simp [insertDocumentsCallback, hni, hl]
    | error e0 =>
      refine ⟨?_, ?_, ?_⟩
      · simp [insertDocumentsCallback, hni, hl]
      · simp [insertDocumentsCallback, hni, hl]
      · intro e
        simp [insertDocumentsCallback, hni, hl, eq_comm]

/-- C8 witness: a two-document batch whose ordered write succeeds issues a
single ordered, validation-disabled insert and does not fail. -/
theorem insertDocumentsCallback_ordered_single_batch_witness :
    (witnessStateWithBuffer.documentsToInsert ≠ [] ∧
     witnessEnvBase.performInserts witnessStateWithBuffer.documentsToInsert ≠ []) ∧
    ((insertDocumentsCallback witnessEnvBase witnessStateWithBuffer).1.insertOps =
      witnessStateWithBuffer.insertOps ++
        [{ ns := witnessStateWithBuffer.existingNss.getD witnessEnvBase.sourceNss,
           ordered := true, validationDisabled := true,
           docs := witnessStateWithBuffer.documentsToInsert }] ∧
     ((insertDocumentsCallback witnessEnvBase witnessStateWithBuffer).2 = none ↔
       (witnessEnvBase.performInserts witnessStateWithBuffer.documentsToInsert).getLast?
         = some (Except.ok ())) ∧
     (∀ e, (insertDocumentsCallback witnessEnvBase witnessStateWithBuffer).2 = some e ↔
       (witnessEnvBase.performInserts witnessStateWithBuffer.documentsToInsert).getLast?
         = some (Except.error e))) :=
  ⟨⟨by decide, by decide⟩,
   insertDocumentsCallback_ordered_single_batch witnessEnvBase witnessStateWithBuffer
     (by decide) (by decide)⟩

/-- C9: a successful insert task over a non-empty batch increments
documents-copied by exactly the batch size and the inserted-batches counter
by one; and documents-copied never decreases across any insert task. -/
theorem insertDocumentsCallback_increments_counters (env : Env) (st : ClonerState)
    (hne : st.documentsToInsert ≠ [])
    (hok : (insertDocumentsCallback env st).2 = none) :
    (insertDocumentsCallback env st).1.stats.documentsCopied
        = st.stats.documentsCopied + st.documentsToInsert.length ∧
    (insertDocumentsCallback env st).1.stats.insertedBatches
        = st.stats.insertedBatches + 1 ∧
    (∀ (env2 : Env) (st2 : ClonerState),
      st2.stats.documentsCopied ≤ (insertDocumentsCallback env2 st2).1.stats.documentsCopied) := by
  have hni : st.documentsToInsert.isEmpty = false := by
    simp [hne]
  refine ⟨?_, ?_, ?_⟩
  · simp only [insertDocumentsCallback, hni, Bool.false_eq_true, if_false]
    split <;> rfl
  · simp only [insertDocumentsCallback, hni, Bool.false_eq_true, if_false]
    split <;> rfl
  · intro env2 st2
    simp only [insertDocumentsCallback]
    split
    · exact le_refl _
    · split <;> exact Nat.le_add_right _ _

/-- C9 witness: the successful two-document batch adds two to
documents-copied and one to inserted-batches. -/
theorem insertDocumentsCallback_increments_counters_witness :
    (witnessStateWithBuffer.documentsToInsert ≠ [] ∧
     (insertDocumentsCallback witnessEnvBase witnessStateWithBuffer).2 = none) ∧
    ((insertDocumentsCallback witnessEnvBase witnessStateWithBuffer).1.stats.documentsCopied
        = witnessStateWithBuffer.stats.documentsCopied
            + witnessStateWithBuffer.documentsToInsert.length ∧
     (insertDocumentsCallback witnessEnvBase witnessStateWithBuffer).1.stats.insertedBatches
        = witnessStateWithBuffer.stats.insertedBatches + 1 ∧
     (∀ (env2 : Env) (st2 : ClonerState),
       st2.stats.documentsCopied
         ≤ (insertDocumentsCallback env2 st2).1.stats.documentsCopied)) :=
  ⟨⟨by decide, by decide⟩,
   insertDocumentsCallback_increments_counters witnessEnvBase witnessStateWithBuffer
     (by decide) (by decide)⟩

theorem buildReadyIndexes_indexBuildCalls (env : Env) (st : ClonerState) :
    (buildReadyIndexes env st).st.indexBuildCalls
        = st.indexBuildCalls ++ [st.readyIndexSpecs] := by
  simp only [buildReadyIndexes]
  split <;> rfl

/-- C5: when the create-collection stage finds the destination collection
already existing and non-empty in a resuming run, it sets the resume anchor
to the maximum primary-key value present in the destination, performs no
index-build call (the planned index list is cleared), increases
documents-copied by the destination document count, and issues no read. -/
theorem createCollectionStage_resume_nonempty (env : Env) (st : ClonerState)
    (coll : ExistingColl)
    (hc : env.existingCollection = some coll)
    (ht : isNamespaceForTenant coll.ns env.tenantId = true)
    (hdb : coll.ns.db = env.sourceNss.db)
    (hres : env.isResuming = true)
    (hne : coll.docs ≠ []) :
    (createCollectionStage env st).outcome = Except.ok AfterStageBehavior.kContinueNormally ∧
    (∃ m, (createCollectionStage env st).st.lastDocId = some m ∧ m ∈ coll.docs ∧
        ∀ x ∈ coll.docs, x ≤ m) ∧
    (createCollectionStage env st).st.indexBuildCalls = st.indexBuildCalls ∧
    (createCollectionStage env st).st.readyIndexSpecs = [] ∧
    (createCollectionStage env st).st.stats.documentsCopied
        = st.stats.documentsCopied + coll.docs.length ∧
    (createCollectionStage env st).st.issuedQueries = st.issuedQueries := by
  rcases listIntMaxCharacterization coll.docs hne with ⟨m, hm, hmem, hle⟩
  refine ⟨?_, ⟨m, ?_, hmem, hle⟩, ?_, ?_, ?_, ?_⟩ <;>
    simp [createCollectionStage, hc, ht, hdb, hres, hm]

/-- C5 witness: resuming onto a destination holding documents 1, 2 and 5
anchors at 5, performs no index build and adds three to documents-copied. -/
theorem createCollectionStage_resume_nonempty_witness :
    (witnessEnvResume.existingCollection = some witnessExistingColl ∧
     witnessExistingColl.docs ≠ [] ∧
     witnessEnvResume.isResuming = true) ∧
    ((createCollectionStage witnessEnvResume initialClonerState).outcome
        = Except.ok AfterStageBehavior.kContinueNormally ∧
     (∃ m, (createCollectionStage witnessEnvResume initialClonerState).st.lastDocId = some m ∧
        m ∈ witnessExistingColl.docs ∧ ∀ x ∈ witnessExistingColl.docs, x ≤ m) ∧
     (createCollectionStage witnessEnvResume initialClonerState).st.indexBuildCalls
        = initialClonerState.indexBuildCalls ∧
     (createCollectionStage witnessEnvResume initialClonerState).st.readyIndexSpecs = [] ∧
     (createCollectionStage witnessEnvResume initialClonerState).st.stats.documentsCopied
        = initialClonerState.stats.documentsCopied + witnessExistingColl.docs.length ∧
     (createCollectionStage witnessEnvResume initialClonerState).st.issuedQueries
        = initialClonerState.issuedQueries) :=
  ⟨⟨by decide, by decide, by decide⟩,
   createCollectionStage_resume_nonempty witnessEnvResume initialClonerState
     witnessExistingColl (by decide) (by decide) (by decide) (by decide) (by decide)⟩

/-- C6: when the create-collection stage finds the destination collection
existing but empty in a resuming run, the one index-build call it makes
requests exactly the planned indexes whose names are not already present
locally; in particular, when every planned index already exists locally by
name, the call requests zero indexes (idempotent re-run). -/
theorem createCollectionStage_empty_destination_index_idempotence (env : Env)
    (st : ClonerState) (coll : ExistingColl)
    (hc : env.existingCollection = some coll)
    (ht : isNamespaceForTenant coll.ns env.tenantId = true)
    (hdb : coll.ns.db = env.sourceNss.db)
    (hres : env.isResuming = true)
    (hempty : coll.docs = []) :
    (createCollectionStage env st).st.indexBuildCalls =
      st.indexBuildCalls ++
        [st.readyIndexSpecs.filter
          (fun s => !((coll.localIndexSpecs.map getNameField).contains (getNameField s)))] ∧
    ((∀ s ∈ st.readyIndexSpecs,
        (coll.localIndexSpecs.map getNameField).contains (getNameField s) = true) →
      (createCollectionStage env st).st.indexBuildCalls = st.indexBuildCalls ++ [[]]) := by
  have hmax : coll.docs.max? = none := by
    rw [hempty]
    rfl
  have hfirst : (createCollectionStage env st).st.indexBuildCalls =
      st.indexBuildCalls ++
        [st.readyIndexSpecs.filter
          (fun s => !((coll.localIndexSpecs.map getNameField).contains (getNameField s)))] := by
    simp [createCollectionStage, hc, ht, hdb, hres, hmax, buildReadyIndexes_indexBuildCalls]
  refine ⟨hfirst, ?_⟩
  intro hall
  have hnil : st.readyIndexSpecs.filter
      (fun s => !((coll.localIndexSpecs.map getNameField).contains (getNameField s))) = [] := by
    rw [List.filter_eq_nil_iff]
    intro a ha
    simp only [hall a ha, Bool.not_true]
    exact Bool.false_ne_true
  rw [hfirst, hnil]

/-- C6 witness: with the one planned secondary index already present
locally, resuming onto an empty destination issues one index-build call
requesting zero indexes. -/
theorem createCollectionStage_empty_destination_index_idempotence_witness :
    (witnessEnvResumeEmpty.existingCollection = some witnessExistingCollEmpty ∧
     witnessExistingCollEmpty.docs = [] ∧
     (∀ s ∈ witnessStatePlanned.readyIndexSpecs,
        (witnessExistingCollEmpty.localIndexSpecs.map getNameField).contains
          (getNameField s) = true)) ∧
    ((createCollectionStage witnessEnvResumeEmpty witnessStatePlanned).st.indexBuildCalls =
      witnessStatePlanned.indexBuildCalls ++
        [witnessStatePlanned.readyIndexSpecs.filter
          (fun s =>
            !((witnessExistingCollEmpty.localIndexSpecs.map getNameField).contains
                (getNameField s)))] ∧
     ((∀ s ∈ witnessStatePlanned.readyIndexSpecs,
        (witnessExistingCollEmpty.localIndexSpecs.map getNameField).contains
          (getNameField s) = true) →
      (createCollectionStage witnessEnvResumeEmpty witnessStatePlanned).st.indexBuildCalls
        = witnessStatePlanned.indexBuildCalls ++ [[]])) :=
  ⟨⟨by decide, by decide, by decide⟩,
   createCollectionStage_empty_destination_index_idempotence witnessEnvResumeEmpty
     witnessStatePlanned witnessExistingCollEmpty
     (by decide) (by decide) (by decide) (by decide) (by decide)⟩

/-- C1: whenever the donor was not observed empty, the query stage issues
exactly the read built by runQuery from the resume anchor: with no anchor
the filter selects every document and the read is hinted on the ascending
primary-key index; with an anchor the filter selects exactly the documents
whose primary key is strictly greater than the anchor. -/
theorem queryStage_read_request (env : Env) (st : ClonerState)
    (hne : st.donorCollectionWasEmptyBeforeListIndexes = false) :
    (queryStage env st).st.issuedQueries = st.issuedQueries ++ [runQuery st.lastDocId] ∧
    runQuery none = { filter := QueryFilter.all, hintIdAscending := true } ∧
    (∀ a : Int, (runQuery (some a)).hintIdAscending = true) ∧
    (∀ id : Int, filterMatches (runQuery none).filter id = true) ∧
    (∀ a id : Int, filterMatches (runQuery (some a)).filter id = true ↔ a < id) := by
  refine ⟨?_, rfl, fun a => rfl, fun id => rfl, fun a id => ?_⟩
  · simp only [queryStage, hne, Bool.false_eq_true, if_false]
    cases hqe : env.queryError with
    | some e => simp
    | none =>
      simp only []
      split <;>
        simp [waitForDatabaseWorkToComplete, foldl_processBatch_issuedQueries]
  · simp [runQuery, filterMatches]

/-- C1 witness: a fresh run with no anchor issues the unrestricted
ascending read. -/
theorem queryStage_read_request_witness :
    (initialClonerState.donorCollectionWasEmptyBeforeListIndexes = false) ∧
    ((queryStage witnessEnvBase initialClonerState).st.issuedQueries
        = initialClonerState.issuedQueries ++ [runQuery initialClonerState.lastDocId] ∧
     runQuery none = { filter := QueryFilter.all, hintIdAscending := true } ∧
     (∀ a : Int, (runQuery (some a)).hintIdAscending = true) ∧
     (∀ id : Int, filterMatches (runQuery none).filter id = true) ∧
     (∀ a id : Int, filterMatches (runQuery (some a)).filter id = true ↔ a < id)) :=
  ⟨by decide, queryStage_read_request witnessEnvBase initialClonerState (by decide)⟩

/-- C2: when the emptiness probe observed zero donor documents, the query
stage returns success without issuing the streaming read; and a fresh,
otherwise healthy run over an empty donor finishes successfully having
scheduled no insert task, issued no read, and copied zero documents. -/
theorem emptiness_check_short_circuits_run (env : Env) (st : ClonerState)
    (hflag : st.donorCollectionWasEmptyBeforeListIndexes = true)
    (hdocs : env.donorDocs = [])
    (hfresh : env.existingCollection = none)
    (hmaj : env.majorityWaitError = none)
    (hvalid : (splitIndexSpecs env.remoteIndexSpecs).1.isSome = true
        ∨ env.autoIndexId = AutoIndexIdOption.NO)
    (hcc : env.createCollectionError = none)
    (hci : env.createIndexesError = none) :
    (queryStage env st
        = { st := st, outcome := Except.ok AfterStageBehavior.kContinueNormally }) ∧
    (runClone env).outcome = Except.ok AfterStageBehavior.kContinueNormally ∧
    (runClone env).st.stats.documentsCopied = 0 ∧
    (runClone env).st.scheduledInsertTasks = 0 ∧
    (runClone env).st.issuedQueries = [] := by
  have hq : queryStage env st
      = { st := st, outcome := Except.ok AfterStageBehavior.kContinueNormally } := by
    simp [queryStage, hflag]
  refine ⟨hq, ?_⟩
  rcases hvalid with hsome | hno
  · rcases Option.isSome_iff_exists.mp hsome with ⟨sp, hsp⟩
    refine ⟨?_, ?_, ?_, ?_⟩ <;>
      simp [runClone, runStageList, getStages, initialClonerState, countStage,
            checkIfDonorCollectionIsEmptyStage, listIndexesStage, createCollectionStage,
            buildReadyIndexes, queryStage, tenantCollectionClonerStageRun,
            hdocs, hfresh, hmaj, hcc, hci, hsp]
  · cases hsp : (splitIndexSpecs env.remoteIndexSpecs).1 with
    | some sp =>
      refine ⟨?_, ?_, ?_, ?_⟩ <;>
        simp [runClone, runStageList, getStages, initialClonerState, countStage,
              checkIfDonorCollectionIsEmptyStage, listIndexesStage, createCollectionStage,
              buildReadyIndexes, queryStage, tenantCollectionClonerStageRun,
              hdocs, hfresh, hmaj, hcc, hci, hsp, hno]
    | none =>
      refine ⟨?_, ?_, ?_, ?_⟩ <;>
        simp [runClone, runStageList, getStages, initialClonerState, countStage,
              checkIfDonorCollectionIsEmptyStage, listIndexesStage, createCollectionStage,
              buildReadyIndexes, queryStage, tenantCollectionClonerStageRun,
              hdocs, hfresh, hmaj, hcc, hci, hsp, hno]

/-- C2 witness: a fresh run over an empty donor succeeds with zero
documents copied, no scheduled insert task and no issued read. -/
theorem emptiness_check_short_circuits_run_witness :
    (witnessStateDonorEmpty.donorCollectionWasEmptyBeforeListIndexes = true ∧
     witnessEnvEmptyDonor.donorDocs = [] ∧
     witnessEnvEmptyDonor.existingCollection = none) ∧
    ((queryStage witnessEnvEmptyDonor witnessStateDonorEmpty
        = { st := witnessStateDonorEmpty,
            outcome := Except.ok AfterStageBehavior.kContinueNormally }) ∧
     (runClone witnessEnvEmptyDonor).outcome
        = Except.ok AfterStageBehavior.kContinueNormally ∧
     (runClone witnessEnvEmptyDonor).st.stats.documentsCopied = 0 ∧
     (runClone witnessEnvEmptyDonor).st.scheduledInsertTasks = 0 ∧
     (runClone witnessEnvEmptyDonor).st.issuedQueries = []) :=
  ⟨⟨by decide, by decide, by decide⟩,
   emptiness_check_short_circuits_run witnessEnvEmptyDonor witnessStateDonorEmpty
     (by decide) (by decide) (by decide) (by decide) (Or.inl (by decide))
     (by decide) (by decide)⟩

/-- C4: with the majority wait succeeding, the list-indexes stage fails
with IllegalOperation exactly when the donor returned no _id index spec and
the collection options do not set autoIndexId to NO; when autoIndexId is NO
and no _id spec was returned, the stage continues with no _id index spec
recorded and none among the planned specs; when an _id spec was returned
despite autoIndexId NO, the stage continues and flags the anomaly; and a
run hitting the violation fails before any document is copied. -/
theorem listIndexesStage_id_index_validation (env : Env) (st : ClonerState)
    (hmaj : env.majorityWaitError = none)
    (hid0 : st.idIndexSpec = none) :
    ((listIndexesStage env st).outcome =
      (if (splitIndexSpecs env.remoteIndexSpecs).1.isSome = true
          ∨ env.autoIndexId = AutoIndexIdOption.NO
       then Except.ok AfterStageBehavior.kContinueNormally
       else Except.error ErrorCode.IllegalOperation)) ∧
    ((splitIndexSpecs env.remoteIndexSpecs).1 = none →
        env.autoIndexId = AutoIndexIdOption.NO →
      (listIndexesStage env st).st.idIndexSpec = none ∧
      ∀ s ∈ (splitIndexSpecs env.remoteIndexSpecs).2, isIdIndexSpec s = false) ∧
    ((splitIndexSpecs env.remoteIndexSpecs).1.isSome = true →
        env.autoIndexId = AutoIndexIdOption.NO →
      (listIndexesStage env st).outcome = Except.ok AfterStageBehavior.kContinueNormally ∧
      (listIndexesStage env st).st.warnedIdIndexWithAutoIndexIdNo = true) ∧
    ((splitIndexSpecs env.remoteIndexSpecs).1 = none →
        env.autoIndexId ≠ AutoIndexIdOption.NO →
      (runClone env).outcome = Except.error ErrorCode.IllegalOperation ∧
      (runClone env).st.stats.documentsCopied = 0 ∧
      (runClone env).st.scheduledInsertTasks = 0 ∧
      (runClone env).st.insertOps = []) := by
  refine ⟨?_, ?_, ?_, ?_⟩
  · cases hsp : (splitIndexSpecs env.remoteIndexSpecs).1 with
    | some sp => simp [listIndexesStage, hmaj, hsp]
    | none =>
      by_cases hno : env.autoIndexId = AutoIndexIdOption.NO
      · simp [listIndexesStage, hmaj, hsp, hno, hid0]
      · simp [listIndexesStage, hmaj, hsp, hno, hid0]
  · intro hsp hno
    refine ⟨?_, splitIndexSpecs_snd_not_id env.remoteIndexSpecs⟩
    simp [listIndexesStage, hmaj, hsp, hno, hid0]
  · intro hsome hno
    rcases Option.isSome_iff_exists.mp hsome with ⟨sp, hsp⟩
    constructor <;> simp [listIndexesStage, hmaj, hsp, hno]
  · intro hsp hno
    refine ⟨?_, ?_, ?_, ?_⟩ <;>
      simp [runClone, runStageList, getStages, initialClonerState, countStage,
            checkIfDonorCollectionIsEmptyStage, listIndexesStage,
            tenantCollectionClonerStageRun, waitForDatabaseWorkToComplete,
            hmaj, hsp, hno]

/-- C4 witness: a donor returning only a secondary index spec while the
collection options leave autoIndexId at its default makes the stage, and
the run, fail with IllegalOperation before any document is copied. -/
theorem listIndexesStage_id_index_validation_witness :
    (witnessEnvNoIdIndex.majorityWaitError = none ∧
     (splitIndexSpecs witnessEnvNoIdIndex.remoteIndexSpecs).1 = none ∧
     witnessEnvNoIdIndex.autoIndexId ≠ AutoIndexIdOption.NO) ∧
    (((listIndexesStage witnessEnvNoIdIndex initialClonerState).outcome =
      (if (splitIndexSpecs witnessEnvNoIdIndex.remoteIndexSpecs).1.isSome = true
          ∨ witnessEnvNoIdIndex.autoIndexId = AutoIndexIdOption.NO
       then Except.ok AfterStageBehavior.kContinueNormally
       else Except.error ErrorCode.IllegalOperation)) ∧
     ((splitIndexSpecs witnessEnvNoIdIndex.remoteIndexSpecs).1 = none →
        witnessEnvNoIdIndex.autoIndexId = AutoIndexIdOption.NO →
      (listIndexesStage witnessEnvNoIdIndex initialClonerState).st.idIndexSpec = none ∧
      ∀ s ∈ (splitIndexSpecs witnessEnvNoIdIndex.remoteIndexSpecs).2,
        isIdIndexSpec s = false) ∧
     ((splitIndexSpecs witnessEnvNoIdIndex.remoteIndexSpecs).1.isSome = true →
        witnessEnvNoIdIndex.autoIndexId = AutoIndexIdOption.NO →
      (listIndexesStage witnessEnvNoIdIndex initialClonerState).outcome
        = Except.ok AfterStageBehavior.kContinueNormally ∧
      (listIndexesStage witnessEnvNoIdIndex
          initialClonerState).st.warnedIdIndexWithAutoIndexIdNo = true) ∧
     ((splitIndexSpecs witnessEnvNoIdIndex.remoteIndexSpecs).1 = none →
        witnessEnvNoIdIndex.autoIndexId ≠ AutoIndexIdOption.NO →
      (runClone witnessEnvNoIdIndex).outcome = Except.error ErrorCode.IllegalOperation ∧
      (runClone witnessEnvNoIdIndex).st.stats.documentsCopied = 0 ∧
      (runClone witnessEnvNoIdIndex).st.scheduledInsertTasks = 0 ∧
      (runClone witnessEnvNoIdIndex).st.insertOps = [])) :=
  ⟨⟨by decide, by decide, by decide⟩,
   listIndexesStage_id_index_validation witnessEnvNoIdIndex initialClonerState
     (by decide) (by decide)⟩

end TenantCollectionClone
